import Mathlib

/-!
Verification of the formula-algebra and knowledge-base assemblies of
`logic_problems.py` (repository knowledge-representation-logic).

The term and formula data model, and the list combinators `AndList` / `OrList`,
live in the backend module `logic.py`, which the repository imports but whose
source is not available here; those are modelled from the specification.
The assembly functions (`formula1a` .. `formula2d`, `liar`, `ints`) are
translated directly from `logic_problems.py`.
-/

namespace LogicProblems

/-- Modelled from the spec: the Term data model of the backend `logic.py`
(not among the given sources).  A term is a named constant or a named
quantifier-bound variable; the source distinguishes them by the leading
sigil of the name string, the spec replaces that with an explicit two-case
tagged type. -/
inductive Term where
  | Constant : String → Term
  | Variable : String → Term
  deriving DecidableEq

/-- Modelled from the spec: the Formula data model of the backend `logic.py`
(not among the given sources): atoms over terms, the strictly binary Boolean
connectives, negation, term equality, and the two quantifiers binding a
variable name over a body. -/
inductive Formula where
  | Atom : String → List Term → Formula
  | Not : Formula → Formula
  | And : Formula → Formula → Formula
  | Or : Formula → Formula → Formula
  | Implies : Formula → Formula → Formula
  | Equiv : Formula → Formula → Formula
  | Equals : Term → Term → Formula
  | Forall : String → Formula → Formula
  | Exists : String → Formula → Formula
  deriving DecidableEq

/-- Modelled from the spec: the `AndList` combinator of the backend `logic.py`
(not among the given sources).  The empty sequence gives the explicit
always-true sentinel atom, a singleton gives its element unwrapped, and a
longer sequence gives the deterministic order-preserving left-nested binary
chain of the strictly binary `And`. -/
def AndList : List Formula → Formula
  | [] => Formula.Atom "True" []
  | f :: fs => fs.foldl Formula.And f

/-- Modelled from the spec: the `OrList` combinator of the backend `logic.py`
(not among the given sources), dual to `AndList` with the always-false
sentinel atom for the empty sequence. -/
def OrList : List Formula → Formula
  | [] => Formula.Atom "False" []
  | f :: fs => fs.foldl Formula.Or f

/-- The pair enumeration of `liar` in `logic_problems.py`:
`for i, p1 in enumerate(people) for p2 in people[i+1:]` — every unordered
pair exactly once, outer index ascending, inner index over the remainder. -/
def pairsAfter {α : Type} : List α → List (α × α)
  | [] => []
  | x :: xs => (xs.map (fun y => (x, y))) ++ pairsAfter xs

/-- `formula1a` of `logic_problems.py`: if summer and California then no rain. -/
def formula1a : Formula :=
  let Summer := Formula.Atom "Summer" []
  let California := Formula.Atom "California" []
  let Rain := Formula.Atom "Rain" []
  Formula.Implies (Formula.And Summer California) (Formula.Not Rain)

/-- `formula1b` of `logic_problems.py`: wet iff rain or sprinklers. -/
def formula1b : Formula :=
  let Rain := Formula.Atom "Rain" []
  let Wet := Formula.Atom "Wet" []
  let Sprinklers := Formula.Atom "Sprinklers" []
  Formula.Equiv Wet (Formula.Or Rain Sprinklers)

/-- `formula1c` of `logic_problems.py`: day or night but not both. -/
def formula1c : Formula :=
  let Day := Formula.Atom "Day" []
  let Night := Formula.Atom "Night" []
  Formula.And (Formula.Or Day Night) (Formula.Not (Formula.And Day Night))

/-- `formula2a` of `logic_problems.py`: every person has a parent. -/
def formula2a : Formula :=
  let Person := fun x => Formula.Atom "Person" [x]
  let Parent := fun x y => Formula.Atom "Parent" [x, y]
  Formula.Forall "$x" (Formula.Implies (Person (Term.Variable "$x"))
    (Formula.Exists "$y" (Parent (Term.Variable "$x") (Term.Variable "$y"))))

/-- `formula2b` of `logic_problems.py`: at least one person has no children. -/
def formula2b : Formula :=
  let Person := fun x => Formula.Atom "Person" [x]
  let Child := fun x y => Formula.Atom "Child" [x, y]
  Formula.Exists "$x" (Formula.And (Person (Term.Variable "$x"))
    (Formula.Not (Formula.Exists "$y" (Child (Term.Variable "$x") (Term.Variable "$y")))))

/-- `formula2c` of `logic_problems.py`: defines Father from Male and Parent. -/
def formula2c : Formula :=
  let Male := fun x => Formula.Atom "Male" [x]
  let Parent := fun x y => Formula.Atom "Parent" [x, y]
  let Father := fun x y => Formula.Atom "Father" [x, y]
  Formula.Forall "$x" (Formula.Forall "$y" (Formula.Equiv
    (Formula.And (Male (Term.Variable "$x")) (Parent (Term.Variable "$y") (Term.Variable "$x")))
    (Father (Term.Variable "$y") (Term.Variable "$x"))))

/-- `formula2d` of `logic_problems.py`: defines Granddaughter from Female and Child. -/
def formula2d : Formula :=
  let Female := fun x => Formula.Atom "Female" [x]
  let Child := fun x y => Formula.Atom "Child" [x, y]
  let Granddaughter := fun x y => Formula.Atom "Granddaughter" [x, y]
  Formula.Forall "$x" (Formula.Forall "$y" (Formula.Equiv
    (Granddaughter (Term.Variable "$y") (Term.Variable "$x"))
    (Formula.And (Female (Term.Variable "$x"))
      (Formula.Exists "$z" (Formula.And (Child (Term.Variable "$y") (Term.Variable "$z"))
        (Child (Term.Variable "$z") (Term.Variable "$x")))))))

/-- `liar` of `logic_problems.py`: the four statements of the liar puzzle, the
two exactly-one constraints, and the query asking who crashed the server. -/
def liar : List Formula × Formula :=
  let TellTruth := fun t => Formula.Atom "TellTruth" [t]
  let CrashedServer := fun t => Formula.Atom "CrashedServer" [t]
  let mark := Term.Constant "mark"
  let john := Term.Constant "john"
  let nicole := Term.Constant "nicole"
  let susan := Term.Constant "susan"
  let people := [mark, john, nicole, susan]
  let statements :=
    [Formula.Equiv (TellTruth mark) (Formula.Not (CrashedServer mark)),
     Formula.Equiv (TellTruth john) (CrashedServer nicole),
     Formula.Equiv (TellTruth nicole) (CrashedServer susan),
     Formula.Equiv (TellTruth susan) (Formula.Not (TellTruth nicole))]
  let oneTruth := Formula.And
    (OrList (people.map TellTruth))
    (AndList ((pairsAfter people).map
      (fun pq => Formula.Not (Formula.And (TellTruth pq.1) (TellTruth pq.2)))))
  let oneCrash := Formula.And
    (OrList (people.map CrashedServer))
    (AndList ((pairsAfter people).map
      (fun pq => Formula.Not (Formula.And (CrashedServer pq.1) (CrashedServer pq.2)))))
  (statements ++ [oneTruth, oneCrash], CrashedServer (Term.Variable "$x"))

/-- `ints` of `logic_problems.py`: the six number-theory facts about
Even, Odd, Successor and Larger, and the query. -/
def ints : List Formula × Formula :=
  let Even := fun x => Formula.Atom "Even" [x]
  let Odd := fun x => Formula.Atom "Odd" [x]
  let Successor := fun x y => Formula.Atom "Successor" [x, y]
  let Larger := fun x y => Formula.Atom "Larger" [x, y]
  let vx := Term.Variable "$x"
  let vy := Term.Variable "$y"
  let vz := Term.Variable "$z"
  let formulas :=
    [Formula.Forall "$x" (Formula.Exists "$y" (AndList
       [Successor vx vy,
        Formula.Not (Formula.Equals vx vy),
        Formula.Forall "$z" (Formula.Implies (Successor vx vz) (Formula.Equals vz vy))])),
     Formula.Forall "$x" (Formula.And (Formula.Or (Odd vx) (Even vx))
       (Formula.Not (Formula.And (Odd vx) (Even vx)))),
     Formula.Forall "$x" (Formula.Forall "$y"
       (Formula.Implies (Formula.And (Even vx) (Successor vx vy)) (Odd vy))),
     Formula.Forall "$x" (Formula.Forall "$y"
       (Formula.Implies (Formula.And (Odd vx) (Successor vx vy)) (Even vy))),
     Formula.Forall "$x" (Formula.Forall "$y"
       (Formula.Implies (Successor vx vy) (Larger vy vx))),
     Formula.Forall "$x" (Formula.Forall "$y" (Formula.Forall "$z"
       (Formula.Implies (Formula.And (Larger vx vy) (Larger vy vz)) (Larger vx vz))))]
  let query := Formula.Forall "$x" (Formula.Exists "$y"
    (Formula.And (Even vy) (Larger vy vx)))
  (formulas, query)

/-- A first-order model over a domain `D`: an interpretation for constant
names and one for predicate names applied to argument lists. -/
structure Model (D : Type) where
  constInterp : String → D
  predInterp : String → List D → Prop

/-- Value of a term in a model under a variable assignment. -/
def interpTerm {D : Type} (M : Model D) (σ : String → D) : Term → D
  | Term.Constant c => M.constInterp c
  | Term.Variable v => σ v

/-- Truth of a formula in a model under a variable assignment. -/
def interp {D : Type} (M : Model D) (σ : String → D) : Formula → Prop
  | Formula.Atom p args => M.predInterp p (args.map (interpTerm M σ))
  | Formula.Not f => ¬ interp M σ f
  | Formula.And f g => interp M σ f ∧ interp M σ g
  | Formula.Or f g => interp M σ f ∨ interp M σ g
  | Formula.Implies f g => interp M σ f → interp M σ g
  | Formula.Equiv f g => (interp M σ f ↔ interp M σ g)
  | Formula.Equals a b => interpTerm M σ a = interpTerm M σ b
  | Formula.Forall v b => ∀ d : D, interp M (fun w => if w = v then d else σ w) b
  | Formula.Exists v b => ∃ d : D, interp M (fun w => if w = v then d else σ w) b

/-- Variable names occurring in a term. -/
def termVars : Term → List String
  | Term.Constant _ => []
  | Term.Variable v => [v]

/-- Free variable names of a formula: variables occurring in an `Atom` or
`Equals` leaf minus those captured by an enclosing binder of the same name. -/
def freeVars : Formula → List String
  | Formula.Atom _ args => args.foldr (fun t acc => termVars t ++ acc) []
  | Formula.Not f => freeVars f
  | Formula.And f g => freeVars f ++ freeVars g
  | Formula.Or f g => freeVars f ++ freeVars g
  | Formula.Implies f g => freeVars f ++ freeVars g
  | Formula.Equiv f g => freeVars f ++ freeVars g
  | Formula.Equals a b => termVars a ++ termVars b
  | Formula.Forall v b => (freeVars b).filter (fun w => w != v)
  | Formula.Exists v b => (freeVars b).filter (fun w => w != v)

/-- Substitute term `t` for every free occurrence of variable `v` in a term. -/
def substTerm (v : String) (t : Term) : Term → Term
  | Term.Constant c => Term.Constant c
  | Term.Variable w => if w = v then t else Term.Variable w

/-- Substitute term `t` for every free occurrence of variable `v`; the
substitution stops at a binder that re-introduces the same name. -/
def subst (v : String) (t : Term) : Formula → Formula
  | Formula.Atom p args => Formula.Atom p (args.map (substTerm v t))
  | Formula.Not f => Formula.Not (subst v t f)
  | Formula.And f g => Formula.And (subst v t f) (subst v t g)
  | Formula.Or f g => Formula.Or (subst v t f) (subst v t g)
  | Formula.Implies f g => Formula.Implies (subst v t f) (subst v t g)
  | Formula.Equiv f g => Formula.Equiv (subst v t f) (subst v t g)
  | Formula.Equals a b => Formula.Equals (substTerm v t a) (substTerm v t b)
  | Formula.Forall w b => if w = v then Formula.Forall w b else Formula.Forall w (subst v t b)
  | Formula.Exists w b => if w = v then Formula.Exists w b else Formula.Exists w (subst v t b)

/-- Instantiate a universally quantified formula at a term: strip the
outermost `Forall` and substitute the term for its bound variable. -/
def instantiateForall (f : Formula) (t : Term) : Option Formula :=
  match f with
  | Formula.Forall v b => some (subst v t b)
  | _ => none

/-- The two operand formulas of an `Equiv` lying under two `Forall` binders. -/
def innerEquivOperands : Formula → Option (Formula × Formula)
  | Formula.Forall _ (Formula.Forall _ (Formula.Equiv l r)) => some (l, r)
  | _ => none

/-- Whether a formula is an atom of the given predicate name. -/
def isAtomNamed (target : String) : Formula → Bool
  | Formula.Atom p _ => p == target
  | _ => false

/-- Whether a formula's root is a `Forall` binder. -/
def isForallRoot : Formula → Bool
  | Formula.Forall _ _ => true
  | _ => false

/-- Whether a formula's root is an `Equiv` connective. -/
def isEquivRoot : Formula → Bool
  | Formula.Equiv _ _ => true
  | _ => false

/-- One record of the values produced by running all nine assembly
functions; used to compare independent runs. -/
structure AssemblyRun where
  f1a : Formula
  f1b : Formula
  f1c : Formula
  f2a : Formula
  f2b : Formula
  f2c : Formula
  f2d : Formula
  liarResult : List Formula × Formula
  intsResult : List Formula × Formula
  deriving DecidableEq

/-- One invocation of all nine assembly functions. -/
def runAssemblies : Unit → AssemblyRun := fun _ =>
  ⟨formula1a, formula1b, formula1c, formula2a, formula2b, formula2c, formula2d, liar, ints⟩

theorem interp_and_iff {D : Type} (M : Model D) (σ : String → D) (f g : Formula) :
    interp M σ (Formula.And f g) ↔ (interp M σ f ∧ interp M σ g) := Iff.rfl

theorem interp_or_iff {D : Type} (M : Model D) (σ : String → D) (f g : Formula) :
    interp M σ (Formula.Or f g) ↔ (interp M σ f ∨ interp M σ g) := Iff.rfl

theorem interp_foldl_And {D : Type} (M : Model D) (σ : String → D)
    (fs : List Formula) (a : Formula) :
    interp M σ (fs.foldl Formula.And a) ↔ (interp M σ a ∧ ∀ f ∈ fs, interp M σ f) := by
  induction fs generalizing a with
  | nil => simp
  | cons g gs ih =>
    rw [List.foldl_cons, ih]
    simp only [interp_and_iff, List.mem_cons]
    constructor
    · rintro ⟨⟨ha, hg⟩, hrest⟩
      refine ⟨ha, ?_⟩
      rintro f (rfl | hf)
      · exact hg
      · exact hrest f hf
    · rintro ⟨ha, hall⟩
      exact ⟨⟨ha, hall g (Or.inl rfl)⟩, fun f hf => hall f (Or.inr hf)⟩

theorem interp_foldl_Or {D : Type} (M : Model D) (σ : String → D)
    (fs : List Formula) (a : Formula) :
    interp M σ (fs.foldl Formula.Or a) ↔ (interp M σ a ∨ ∃ f ∈ fs, interp M σ f) := by
  induction fs generalizing a with
  | nil => simp
  | cons g gs ih =>
    rw [List.foldl_cons, ih]
    simp only [interp_or_iff, List.mem_cons]
    constructor
    · rintro ((ha | hg) | ⟨f, hf, hi⟩)
      · exact Or.inl ha
      · exact Or.inr ⟨g, Or.inl rfl, hg⟩
      · exact Or.inr ⟨f, Or.inr hf, hi⟩
    · rintro (ha | ⟨f, (rfl | hf), hi⟩)
      · exact Or.inl (Or.inl ha)
      · exact Or.inl (Or.inr hi)
      · exact Or.inr ⟨f, hf, hi⟩

/-- C5: for every non-empty sequence `S`, `AndList S` holds in a model exactly
when every element of `S` holds, and `OrList S` exactly when some element
holds; moreover both build the order-preserving left-nested binary chain, so
appending one more element wraps exactly one further binary connective around
the previous chain. -/
theorem andList_orList_semantics {D : Type} (M : Model D) (σ : String → D)
    (S : List Formula) (h : S ≠ []) :
    ((interp M σ (AndList S) ↔ ∀ f ∈ S, interp M σ f)
      ∧ (interp M σ (OrList S) ↔ ∃ f ∈ S, interp M σ f))
    ∧ ((∀ g : Formula, AndList (S ++ [g]) = Formula.And (AndList S) g)
      ∧ (∀ g : Formula, OrList (S ++ [g]) = Formula.Or (OrList S) g)) := by
  match S with
  | [] => exact absurd rfl h
  | a :: fs =>
    refine ⟨⟨?_, ?_⟩, ?_, ?_⟩
    · show interp M σ (fs.foldl Formula.And a) ↔ _
      rw [interp_foldl_And]
      simp [List.mem_cons]
    · show interp M σ (fs.foldl Formula.Or a) ↔ _
      rw [interp_foldl_Or]
      simp [List.mem_cons]
    · intro g
      simp [AndList, List.foldl_append]
    · intro g
      simp [OrList, List.foldl_append]

/-- A concrete two-valued model used to exercise `andList_orList_semantics`. -/
def boolModel : Model Bool := ⟨fun _ => true, fun _ _ => True⟩

/-- Witness for C5 at the concrete two-element sequence `[A, B]` under
`boolModel`. -/
theorem andList_orList_semantics_witness :
    (([Formula.Atom "A" [], Formula.Atom "B" []] : List Formula) ≠ [])
    ∧ (((interp boolModel (fun _ => true) (AndList [Formula.Atom "A" [], Formula.Atom "B" []]) ↔
          ∀ f ∈ [Formula.Atom "A" [], Formula.Atom "B" []], interp boolModel (fun _ => true) f)
        ∧ (interp boolModel (fun _ => true) (OrList [Formula.Atom "A" [], Formula.Atom "B" []]) ↔
          ∃ f ∈ [Formula.Atom "A" [], Formula.Atom "B" []], interp boolModel (fun _ => true) f))
      ∧ ((∀ g : Formula, AndList ([Formula.Atom "A" [], Formula.Atom "B" []] ++ [g]) =
            Formula.And (AndList [Formula.Atom "A" [], Formula.Atom "B" []]) g)
        ∧ (∀ g : Formula, OrList ([Formula.Atom "A" [], Formula.Atom "B" []] ++ [g]) =
            Formula.Or (OrList [Formula.Atom "A" [], Formula.Atom "B" []]) g))) :=
  ⟨by decide,
   andList_orList_semantics boolModel (fun _ => true)
     [Formula.Atom "A" [], Formula.Atom "B" []] (by decide)⟩

/-- C6: `AndList` on the empty sequence returns the always-true sentinel atom
and `OrList` the always-false sentinel atom, and on a one-element sequence
both return that element itself with no extra wrapping. -/
theorem andList_orList_empty_singleton :
    AndList [] = Formula.Atom "True" []
    ∧ OrList [] = Formula.Atom "False" []
    ∧ (∀ f : Formula, AndList [f] = f)
    ∧ (∀ f : Formula, OrList [f] = f) :=
  ⟨rfl, rfl, fun _ => rfl, fun _ => rfl⟩

/-- C1: `liar` returns a knowledge base of exactly six formulas — the four
`Equiv`-rooted statement formulas for mark, john, nicole and susan in that
order, then the exactly-one-TellTruth encoding, then the
exactly-one-CrashedServer encoding — and a query that is the atom
`CrashedServer` applied to the free variable `$x`. -/
theorem liar_kb_and_query_shape :
    liar.1.length = 6
    ∧ (liar.1.take 4).all isEquivRoot = true
    ∧ liar =
      ([Formula.Equiv (Formula.Atom "TellTruth" [Term.Constant "mark"])
          (Formula.Not (Formula.Atom "CrashedServer" [Term.Constant "mark"])),
        Formula.Equiv (Formula.Atom "TellTruth" [Term.Constant "john"])
          (Formula.Atom "CrashedServer" [Term.Constant "nicole"]),
        Formula.Equiv (Formula.Atom "TellTruth" [Term.Constant "nicole"])
          (Formula.Atom "CrashedServer" [Term.Constant "susan"]),
        Formula.Equiv (Formula.Atom "TellTruth" [Term.Constant "susan"])
          (Formula.Not (Formula.Atom "TellTruth" [Term.Constant "nicole"])),
        Formula.And
          (OrList [Formula.Atom "TellTruth" [Term.Constant "mark"],
                   Formula.Atom "TellTruth" [Term.Constant "john"],
                   Formula.Atom "TellTruth" [Term.Constant "nicole"],
                   Formula.Atom "TellTruth" [Term.Constant "susan"]])
          (AndList
            [Formula.Not (Formula.And (Formula.Atom "TellTruth" [Term.Constant "mark"])
               (Formula.Atom "TellTruth" [Term.Constant "john"])),
             Formula.Not (Formula.And (Formula.Atom "TellTruth" [Term.Constant "mark"])
               (Formula.Atom "TellTruth" [Term.Constant "nicole"])),
             Formula.Not (Formula.And (Formula.Atom "TellTruth" [Term.Constant "mark"])
               (Formula.Atom "TellTruth" [Term.Constant "susan"])),
             Formula.Not (Formula.And (Formula.Atom "TellTruth" [Term.Constant "john"])
               (Formula.Atom "TellTruth" [Term.Constant "nicole"])),
             Formula.Not (Formula.And (Formula.Atom "TellTruth" [Term.Constant "john"])
               (Formula.Atom "TellTruth" [Term.Constant "susan"])),
             Formula.Not (Formula.And (Formula.Atom "TellTruth" [Term.Constant "nicole"])
               (Formula.Atom "TellTruth" [Term.Constant "susan"]))]),
        Formula.And
          (OrList [Formula.Atom "CrashedServer" [Term.Constant "mark"],
                   Formula.Atom "CrashedServer" [Term.Constant "john"],
                   Formula.Atom "CrashedServer" [Term.Constant "nicole"],
                   Formula.Atom "CrashedServer" [Term.Constant "susan"]])
          (AndList
            [Formula.Not (Formula.And (Formula.Atom "CrashedServer" [Term.Constant "mark"])
               (Formula.Atom "CrashedServer" [Term.Constant "john"])),
             Formula.Not (Formula.And (Formula.Atom "CrashedServer" [Term.Constant "mark"])
               (Formula.Atom "CrashedServer" [Term.Constant "nicole"])),
             Formula.Not (Formula.And (Formula.Atom "CrashedServer" [Term.Constant "mark"])
               (Formula.Atom "CrashedServer" [Term.Constant "susan"])),
             Formula.Not (Formula.And (Formula.Atom "CrashedServer" [Term.Constant "john"])
               (Formula.Atom "CrashedServer" [Term.Constant "nicole"])),
             Formula.Not (Formula.And (Formula.Atom "CrashedServer" [Term.Constant "john"])
               (Formula.Atom "CrashedServer" [Term.Constant "susan"])),
             Formula.Not (Formula.And (Formula.Atom "CrashedServer" [Term.Constant "nicole"])
               (Formula.Atom "CrashedServer" [Term.Constant "susan"]))])],
       Formula.Atom "CrashedServer" [Term.Variable "$x"]) :=
  ⟨rfl, rfl, rfl⟩

/-- C2: each exactly-one encoding of `liar` is a conjunction of the `OrList`
of the four atoms in entity order with the `AndList` of exactly C(4,2) = 6
pairwise-exclusion conjuncts, one per unordered pair, the first component
strictly preceding the second in entity order, enumerated with the outer
index ascending and the inner index over the remainder. -/
theorem liar_exactly_one_encodings :
    pairsAfter [Term.Constant "mark", Term.Constant "john",
                Term.Constant "nicole", Term.Constant "susan"] =
      [(Term.Constant "mark", Term.Constant "john"),
       (Term.Constant "mark", Term.Constant "nicole"),
       (Term.Constant "mark", Term.Constant "susan"),
       (Term.Constant "john", Term.Constant "nicole"),
       (Term.Constant "john", Term.Constant "susan"),
       (Term.Constant "nicole", Term.Constant "susan")]
    ∧ (pairsAfter [Term.Constant "mark", Term.Constant "john",
                   Term.Constant "nicole", Term.Constant "susan"]).length = 4 * (4 - 1) / 2
    ∧ liar.1[4]? = some (Formula.And
        (OrList [Formula.Atom "TellTruth" [Term.Constant "mark"],
                 Formula.Atom "TellTruth" [Term.Constant "john"],
                 Formula.Atom "TellTruth" [Term.Constant "nicole"],
                 Formula.Atom "TellTruth" [Term.Constant "susan"]])
        (AndList
          [Formula.Not (Formula.And (Formula.Atom "TellTruth" [Term.Constant "mark"])
             (Formula.Atom "TellTruth" [Term.Constant "john"])),
           Formula.Not (Formula.And (Formula.Atom "TellTruth" [Term.Constant "mark"])
             (Formula.Atom "TellTruth" [Term.Constant "nicole"])),
           Formula.Not (Formula.And (Formula.Atom "TellTruth" [Term.Constant "mark"])
             (Formula.Atom "TellTruth" [Term.Constant "susan"])),
           Formula.Not (Formula.And (Formula.Atom "TellTruth" [Term.Constant "john"])
             (Formula.Atom "TellTruth" [Term.Constant "nicole"])),
           Formula.Not (Formula.And (Formula.Atom "TellTruth" [Term.Constant "john"])
             (Formula.Atom "TellTruth" [Term.Constant "susan"])),
           Formula.Not (Formula.And (Formula.Atom "TellTruth" [Term.Constant "nicole"])
             (Formula.Atom "TellTruth" [Term.Constant "susan"]))]))
    ∧ liar.1[5]? = some (Formula.And
        (OrList [Formula.Atom "CrashedServer" [Term.Constant "mark"],
                 Formula.Atom "CrashedServer" [Term.Constant "john"],
                 Formula.Atom "CrashedServer" [Term.Constant "nicole"],
                 Formula.Atom "CrashedServer" [Term.Constant "susan"]])
        (AndList
          [Formula.Not (Formula.And (Formula.Atom "CrashedServer" [Term.Constant "mark"])
             (Formula.Atom "CrashedServer" [Term.Constant "john"])),
           Formula.Not (Formula.And (Formula.Atom "CrashedServer" [Term.Constant "mark"])
             (Formula.Atom "CrashedServer" [Term.Constant "nicole"])),
           Formula.Not (Formula.And (Formula.Atom "CrashedServer" [Term.Constant "mark"])
             (Formula.Atom "CrashedServer" [Term.Constant "susan"])),
           Formula.Not (Formula.And (Formula.Atom "CrashedServer" [Term.Constant "john"])
             (Formula.Atom "CrashedServer" [Term.Constant "nicole"])),
           Formula.Not (Formula.And (Formula.Atom "CrashedServer" [Term.Constant "john"])
             (Formula.Atom "CrashedServer" [Term.Constant "susan"])),
           Formula.Not (Formula.And (Formula.Atom "CrashedServer" [Term.Constant "nicole"])
             (Formula.Atom "CrashedServer" [Term.Constant "susan"]))])) :=
  ⟨rfl, rfl, rfl, rfl⟩

/-- C3: instantiating the first `ints` knowledge-base formula — the successor
existence-and-uniqueness statement — at any domain element `n` yields a
formula rooted in `Exists` wrapping the three-way conjunction of existence
`Successor(n,y)`, inequality `Not(Equals(n,y))`, and uniqueness
`Forall(z, Implies(Successor(n,z), Equals(z,y)))`. -/
theorem successor_uniqueness_instantiated_shape (n : String) :
    ints.1.head?.map (fun f => instantiateForall f (Term.Constant n)) =
      some (some (Formula.Exists "$y" (AndList
        [Formula.Atom "Successor" [Term.Constant n, Term.Variable "$y"],
         Formula.Not (Formula.Equals (Term.Constant n) (Term.Variable "$y")),
         Formula.Forall "$z" (Formula.Implies
           (Formula.Atom "Successor" [Term.Constant n, Term.Variable "$z"])
           (Formula.Equals (Term.Variable "$z") (Term.Variable "$y")))]))) := by
  rfl

/-- C4 counterexample: in `formula2d` the defined atom `Granddaughter(y,x)`
is the left operand of the inner `Equiv` and its right operand is not the
defined atom, contradicting the claim that both `formula2c` and `formula2d`
place the definiens on the left and the defined atom on the right. -/
theorem formula2d_defined_atom_on_left :
    (innerEquivOperands formula2d).map (fun lr => isAtomNamed "Granddaughter" lr.2) = some false
    ∧ (innerEquivOperands formula2d).map (fun lr => isAtomNamed "Granddaughter" lr.1) = some true := by
  exact ⟨rfl, rfl⟩

/-- C4 amended: both definitions universally close over both free variables
with `Forall(x, Forall(y, Equiv(..)))`; `formula2c` places the definiens on
the left of the `Equiv` and the defined atom `Father(y,x)` on the right,
while `formula2d` places the defined atom `Granddaughter(y,x)` on the left
and the definiens on the right. -/
theorem relational_definition_shapes :
    formula2c = Formula.Forall "$x" (Formula.Forall "$y" (Formula.Equiv
      (Formula.And (Formula.Atom "Male" [Term.Variable "$x"])
        (Formula.Atom "Parent" [Term.Variable "$y", Term.Variable "$x"]))
      (Formula.Atom "Father" [Term.Variable "$y", Term.Variable "$x"])))
    ∧ formula2d = Formula.Forall "$x" (Formula.Forall "$y" (Formula.Equiv
      (Formula.Atom "Granddaughter" [Term.Variable "$y", Term.Variable "$x"])
      (Formula.And (Formula.Atom "Female" [Term.Variable "$x"])
        (Formula.Exists "$z" (Formula.And
          (Formula.Atom "Child" [Term.Variable "$y", Term.Variable "$z"])
          (Formula.Atom "Child" [Term.Variable "$z", Term.Variable "$x"]))))))
    ∧ (freeVars formula2c).isEmpty = true
    ∧ (freeVars formula2d).isEmpty = true :=
  ⟨rfl, rfl, rfl, rfl⟩

/-- C7: every formula in every produced knowledge base, every propositional
and first-order assembly, and the `ints` query are closed — every variable
occurring in an atom or equality is captured by an enclosing binder of the
same name — and the one free variable anywhere is the designated `$x` of
the `liar` query. -/
theorem produced_formulas_well_scoped :
    ([formula1a, formula1b, formula1c, formula2a, formula2b, formula2c, formula2d].all
      (fun f => (freeVars f).isEmpty)) = true
    ∧ (liar.1.all (fun f => (freeVars f).isEmpty)) = true
    ∧ (ints.1.all (fun f => (freeVars f).isEmpty)) = true
    ∧ (freeVars ints.2).isEmpty = true
    ∧ freeVars liar.2 = ["$x"] :=
  ⟨rfl, rfl, rfl, rfl, rfl⟩

/-- C8: the nine assembly functions are pure and deterministic — two
independent invocations produce structurally equal records — and the
statement formulas constructed first inside `liar` reappear unchanged in
the returned knowledge base after the later encodings are appended. -/
theorem assemblies_pure_deterministic (u v : Unit) :
    runAssemblies u = runAssemblies v
    ∧ (runAssemblies u).liarResult.1.take 4 =
      [Formula.Equiv (Formula.Atom "TellTruth" [Term.Constant "mark"])
         (Formula.Not (Formula.Atom "CrashedServer" [Term.Constant "mark"])),
       Formula.Equiv (Formula.Atom "TellTruth" [Term.Constant "john"])
         (Formula.Atom "CrashedServer" [Term.Constant "nicole"]),
       Formula.Equiv (Formula.Atom "TellTruth" [Term.Constant "nicole"])
         (Formula.Atom "CrashedServer" [Term.Constant "susan"]),
       Formula.Equiv (Formula.Atom "TellTruth" [Term.Constant "susan"])
         (Formula.Not (Formula.Atom "TellTruth" [Term.Constant "nicole"]))]
    ∧ (runAssemblies u).intsResult = ints :=
  ⟨rfl, rfl, rfl⟩

/-- C9: `ints` returns exactly six knowledge-base formulas, each rooted in
`Forall`, in the fixed order successor existence-and-uniqueness, even-xor-odd
parity, successor-of-even-is-odd, successor-of-odd-is-even,
successor-is-larger, transitivity of Larger, with the stated query. -/
theorem ints_kb_and_query_shape :
    ints.1.length = 6
    ∧ ints.1.all isForallRoot = true
    ∧ ints =
      ([Formula.Forall "$x" (Formula.Exists "$y" (Formula.And
          (Formula.And (Formula.Atom "Successor" [Term.Variable "$x", Term.Variable "$y"])
            (Formula.Not (Formula.Equals (Term.Variable "$x") (Term.Variable "$y"))))
          (Formula.Forall "$z" (Formula.Implies
            (Formula.Atom "Successor" [Term.Variable "$x", Term.Variable "$z"])
            (Formula.Equals (Term.Variable "$z") (Term.Variable "$y")))))),
        Formula.Forall "$x" (Formula.And
          (Formula.Or (Formula.Atom "Odd" [Term.Variable "$x"])
            (Formula.Atom "Even" [Term.Variable "$x"]))
          (Formula.Not (Formula.And (Formula.Atom "Odd" [Term.Variable "$x"])
            (Formula.Atom "Even" [Term.Variable "$x"])))),
        Formula.Forall "$x" (Formula.Forall "$y" (Formula.Implies
          (Formula.And (Formula.Atom "Even" [Term.Variable "$x"])
            (Formula.Atom "Successor" [Term.Variable "$x", Term.Variable "$y"]))
          (Formula.Atom "Odd" [Term.Variable "$y"]))),
        Formula.Forall "$x" (Formula.Forall "$y" (Formula.Implies
          (Formula.And (Formula.Atom "Odd" [Term.Variable "$x"])
            (Formula.Atom "Successor" [Term.Variable "$x", Term.Variable "$y"]))
          (Formula.Atom "Even" [Term.Variable "$y"]))),
        Formula.Forall "$x" (Formula.Forall "$y" (Formula.Implies
          (Formula.Atom "Successor" [Term.Variable "$x", Term.Variable "$y"])
          (Formula.Atom "Larger" [Term.Variable "$y", Term.Variable "$x"]))),
        Formula.Forall "$x" (Formula.Forall "$y" (Formula.Forall "$z" (Formula.Implies
          (Formula.And (Formula.Atom "Larger" [Term.Variable "$x", Term.Variable "$y"])
            (Formula.Atom "Larger" [Term.Variable "$y", Term.Variable "$z"]))
          (Formula.Atom "Larger" [Term.Variable "$x", Term.Variable "$z"]))))],
       Formula.Forall "$x" (Formula.Exists "$y" (Formula.And
         (Formula.Atom "Even" [Term.Variable "$y"])
         (Formula.Atom "Larger" [Term.Variable "$y", Term.Variable "$x"])))) :=
  ⟨rfl, rfl, rfl⟩

/-- C10: the three propositional assemblies are built entirely from nullary
atoms under binary connectives, with exactly the stated shapes. -/
theorem propositional_formulas_shape :
    formula1a = Formula.Implies
      (Formula.And (Formula.Atom "Summer" []) (Formula.Atom "California" []))
      (Formula.Not (Formula.Atom "Rain" []))
    ∧ formula1b = Formula.Equiv (Formula.Atom "Wet" [])
      (Formula.Or (Formula.Atom "Rain" []) (Formula.Atom "Sprinklers" []))
    ∧ formula1c = Formula.And
      (Formula.Or (Formula.Atom "Day" []) (Formula.Atom "Night" []))
      (Formula.Not (Formula.And (Formula.Atom "Day" []) (Formula.Atom "Night" []))) :=
  ⟨rfl, rfl, rfl⟩

end LogicProblems
